import Mathlib

/-!
Verification development for the stactools support utilities.

The embedding covers three source files:
* `src/stactools/core/utils/__init__.py`: `map_opt`, `href_exists`
* `src/stactools/testing/test_data.py`: `TestData.get_path`,
  `TestData.get_external_data`
* `stactools_cli/stactools/cli/cli.py`: `setup_logging`, `cli`

External libraries (fsspec, s3fs, requests, zipfile) are modelled as
oracles: pure functions supplied through a `World` record, so that every
statement quantifies over all possible behaviours of those libraries.
POSIX path operations (`os.path.join`, `os.path.dirname`,
`os.path.abspath` / `posixpath.normpath`) are translated directly from
the CPython `posixpath` implementation, using structural recursion over
character lists so that every definition evaluates by kernel reduction.
File-system state is an explicit record threaded through the fetcher.
-/

deriving instance DecidableEq for Except

/-- File contents are modelled as byte lists. -/
abbrev Bytes := List Nat

/-! ### POSIX path model (translated from CPython `posixpath`) -/

/-- `posixpath.isabs`: a path is absolute when it starts with a slash. -/
def isAbs (p : String) : Bool :=
  match p.data with
  | [] => false
  | c :: _ => c == '/'

/-- Whether a path ends with a slash (used by `posixpath.join`). -/
def endsWithSlash (p : String) : Bool :=
  match p.data.getLast? with
  | some c => c == '/'
  | none => false

/-- `os.path.join(a, b)` on POSIX: if `b` is absolute it replaces `a`;
otherwise `b` is appended, inserting a separator unless `a` is empty or
already ends with one. -/
def osPathJoin (a b : String) : String :=
  if isAbs b then b
  else if a == "" || endsWithSlash a then a ++ b
  else a ++ "/" ++ b

/-- `os.path.dirname(p)` on POSIX: the prefix of `p` up to and including
the last slash, with trailing slashes stripped unless the prefix is all
slashes. -/
def dirname (p : String) : String :=
  let head := ((p.data.reverse.dropWhile (fun c => !(c == '/'))).reverse)
  let head :=
    if head.isEmpty || head.all (fun c => c == '/') then head
    else (head.reverse.dropWhile (fun c => c == '/')).reverse
  String.mk head

/-- `p.split('/')` on the character list: splitting on every slash,
producing one (possibly empty) group per segment. -/
def splitSlashes : List Char → List (List Char)
  | [] => [[]]
  | c :: rest =>
    let r := splitSlashes rest
    if c == '/' then [] :: r
    else
      match r with
      | [] => [[c]]
      | g :: gs => (c :: g) :: gs

/-- One step of `posixpath.normpath`'s component loop: skip empty and
`.` components, append a component unless it is a collapsible `..`. -/
def normAppend (initialSlashes : Nat) (acc : List (List Char)) (comp : List Char) :
    List (List Char) :=
  if comp = [] ∨ comp = ['.'] then acc
  else if comp ≠ ['.', '.'] ∨ (initialSlashes = 0 ∧ acc = []) ∨
      (acc ≠ [] ∧ acc.getLast? = some ['.', '.']) then
    acc ++ [comp]
  else if acc ≠ [] then acc.dropLast
  else acc

/-- Join path components with single slashes. -/
def joinComps : List String → String
  | [] => ""
  | [c] => c
  | c :: rest => c ++ "/" ++ joinComps rest

/-- `posixpath.normpath`: collapse `.`/`..`/repeated slashes, keeping a
leading `//` exactly when the input starts with exactly two slashes. -/
def normpath (p : String) : String :=
  if p = "" then "."
  else
    let cs := p.data
    let initialSlashes : Nat :=
      match cs with
      | '/' :: '/' :: '/' :: _ => 1
      | '/' :: '/' :: _ => 2
      | '/' :: _ => 1
      | _ => 0
    let comps := splitSlashes cs
    let newComps := comps.foldl (normAppend initialSlashes) []
    let joined := joinComps (newComps.map String.mk)
    let out := String.mk (List.replicate initialSlashes '/') ++ joined
    if out = "" then "." else out

/-- `os.path.abspath(p)`: join with the current working directory when
relative, then normalise. `cwd` models `os.getcwd()`. -/
def abspath (cwd p : String) : String :=
  if isAbs p then normpath p else normpath (osPathJoin cwd p)

/-! ### `stactools.core.utils` -/

/-- `map_opt(fn, v)`: `return v if v is None else fn(v)`. -/
def map_opt {α β : Type} (fn : α → β) (v : Option α) : Option β :=
  match v with
  | none => none
  | some x => some (fn x)

/-- Model of `fsspec.get_fs_token_paths` and the resolved filesystem's
`exists` method: `resolvedPaths href` is the path list returned for the
href (empty when a glob pattern matches nothing), and `fsExists` is the
`exists` predicate of the filesystem resolved for the href. -/
structure FsspecWorld where
  resolvedPaths : String → List String
  fsExists : String → Bool

/-- A Python value that is either a list of strings or a bool: the type
actually produced by the expression `paths and fs.exists(paths[0])`. -/
inductive PyResult where
  | pylist (l : List String)
  | pybool (b : Bool)
deriving DecidableEq

/-- `href_exists(href)`: `fs, _, paths = fsspec.get_fs_token_paths(href);
return paths and fs.exists(paths[0])`. Python's `and` short-circuits: when
`paths` is the empty list (falsy) the expression evaluates to `paths`
itself, i.e. the empty list, not to a bool. -/
def href_exists (w : FsspecWorld) (href : String) : PyResult :=
  match w.resolvedPaths href with
  | [] => PyResult.pylist []
  | p :: _ => PyResult.pybool (w.fsExists p)

/-! ### `stactools.cli.cli` -/

/-- `logging.DEBUG` -/
def DEBUG : Nat := 10

/-- `logging.INFO` -/
def INFO : Nat := 20

/-- `logging.ERROR` -/
def ERROR : Nat := 40

/-- The observable result of `setup_logging`: the named logger with its
level, and the level of the stream handler attached to it. -/
structure Logger where
  name : String
  level : Nat
  handlerLevel : Nat
deriving DecidableEq

/-- `setup_logging(level)`: sets the 'stactools' logger and its stream
handler to `level`. -/
def setup_logging (level : Nat) : Logger :=
  { name := "stactools", level := level, handlerLevel := level }

/-- The body of `cli(verbose, quiet)`: start from INFO, switch to DEBUG
when verbose, then to ERROR when quiet (so quiet wins), and configure
logging with the result. -/
def cli (verbose quiet : Bool) : Logger :=
  let logging_level := INFO
  let logging_level := if verbose then DEBUG else logging_level
  let logging_level := if quiet then ERROR else logging_level
  setup_logging logging_level

/-! ### `stactools.testing.test_data` -/

/-- One value of the `external_data` dictionary. `s3` and
`planetary_computer` record whether the key is present and, when present,
whether its value is truthy (`entry.get(key)` is falsy exactly when the
key is absent or its value is falsy); the concrete s3 storage options are
folded into the `World` oracle below. -/
structure Entry where
  url : String
  s3 : Option Bool
  planetary_computer : Option Bool
  compress : Option String
deriving DecidableEq

/-- Truthiness of `entry.get(key)` for an optional field. -/
def truthy : Option Bool → Bool
  | none => false
  | some b => b

/-- The external environment of one `get_external_data` call. Remote
reads are modelled as pure oracles (a run in which they succeed):
`s3Read url` is `s3fs.S3FileSystem(**config).open(url).read()`,
`sign href` is the href returned by the planetary-computer signing
endpoint for `href`, `fetch url` is `fsspec.open(url).read()`, and
`unzip data` is the member list of `ZipFile` over `data`, in
`namelist()` order, paired with each member's contents. `s3fsAvailable`
records whether `import s3fs` succeeds. `cwd` is the process working
directory (used by `os.path.abspath` and by `ZipFile.extract`, whose
default target directory is the working directory). -/
structure World where
  s3fsAvailable : Bool
  s3Read : String → Bytes
  sign : String → String
  fetch : String → Bytes
  unzip : Bytes → List (String × Bytes)
  cwd : String

/-- On-disk state: regular files with their contents, plus the set of
directories. -/
structure FS where
  files : List (String × Bytes)
  dirs : List String
deriving DecidableEq

/-- Association-list lookup of a file's contents. -/
def lookupBytes : List (String × Bytes) → String → Option Bytes
  | [], _ => none
  | (k, v) :: rest, p => if k = p then some v else lookupBytes rest p

/-- Remove every binding for a path. -/
def removeKey : List (String × Bytes) → String → List (String × Bytes)
  | [], _ => []
  | (k, v) :: rest, p =>
    if k = p then removeKey rest p else (k, v) :: removeKey rest p

/-- `os.path.exists p`: true for files and directories alike. -/
def FS.existsPath (fs : FS) (p : String) : Bool :=
  (lookupBytes fs.files p).isSome || fs.dirs.contains p

/-- `open(p, "wb").write(d)`: create or overwrite the file at `p`. -/
def FS.writeFile (fs : FS) (p : String) (d : Bytes) : FS :=
  { fs with files := (p, d) :: removeKey fs.files p }

/-- `os.makedirs(p, exist_ok=True)` (net effect on the state). -/
def FS.makedirs (fs : FS) (p : String) : FS :=
  { fs with dirs := if fs.dirs.contains p then fs.dirs else p :: fs.dirs }

/-- `shutil.move(src, dst)` for a regular file: in this development it is
only invoked on a file that was just extracted, so the source is always
present. -/
def moveFile (fs : FS) (src dst : String) : FS :=
  match lookupBytes fs.files src with
  | none => fs
  | some d => FS.writeFile { fs with files := removeKey fs.files src } dst d

/-- `self.external_data.get(rel_path)`. -/
def lookupEntry : List (String × Entry) → String → Option Entry
  | [], _ => none
  | (k, v) :: rest, key => if k = key then some v else lookupEntry rest key

/-- The `TestData` instance: `path` and the `external_data` dictionary. -/
structure TestData where
  path : String
  external_data : List (String × Entry)
deriving DecidableEq

/-- `TestData.get_path(rel_path)`:
`os.path.abspath(os.path.join(os.path.dirname(self.path), rel_path))`.
`cwd` models the process working directory consulted by `abspath`. -/
def TestData.get_path (td : TestData) (cwd rel_path : String) : String :=
  abspath cwd (osPathJoin (dirname td.path) rel_path)

/-- Errors raised by source-level statements of `get_external_data`:
the missing-configuration `Exception`, the re-raised `ImportError` when
`import s3fs` fails in the s3 branch, and the `IndexError` of
`z.namelist()[0]` on an empty archive. -/
inductive Err where
  | missingConfig (path rel_path : String)
  | importError
  | indexError
deriving DecidableEq

/-- Observable effects of one call, in program order: the
`external_data.get` lookup, directory creation, one download (by
strategy), and the final store (zip extraction plus move, or a direct
write). -/
inductive Effect where
  | lookup (key : String)
  | makedirs (dir : String)
  | s3Download (url : String)
  | signAndFetch (url signed : String)
  | fetchUrl (url : String)
  | extractMove (member src dst : String)
  | writeFile (p : String)
deriving DecidableEq

/-- The strategy selection of `get_external_data` (lines 97-127):
`if s3_config: ... elif is_pc: ... else: ...`, returning the downloaded
bytes and the download effect, or the re-raised `ImportError` when the
s3 branch is taken and s3fs is not installed. -/
def selectDownload (w : World) (entry : Entry) : Except Err (Bytes × Effect) :=
  if truthy entry.s3 then
    if w.s3fsAvailable then
      Except.ok (w.s3Read entry.url, Effect.s3Download entry.url)
    else
      Except.error Err.importError
  else if truthy entry.planetary_computer then
    Except.ok (w.fetch (w.sign entry.url), Effect.signAndFetch entry.url (w.sign entry.url))
  else
    Except.ok (w.fetch entry.url, Effect.fetchUrl entry.url)

/-- The bytes produced by the selected strategy (the payload of
`selectDownload` when it succeeds). -/
def downloadBytes (w : World) (entry : Entry) : Bytes :=
  if truthy entry.s3 then w.s3Read entry.url
  else if truthy entry.planetary_computer then w.fetch (w.sign entry.url)
  else w.fetch entry.url

/-- The store step of `get_external_data` (lines 129-140): when
`entry.get("compress") == "zip"`, write the bytes to a temporary zip
file (the temporary directory is created and destroyed within the
block, so it has no net effect on the state), take the FIRST name of
`z.namelist()` (an `IndexError` on an empty archive), extract it — by
default into the working directory — and move the extracted file onto
`path`; otherwise write the bytes directly to `path`. -/
def storeData (w : World) (fs1 : FS) (path : String) (entry : Entry) (data : Bytes) :
    Except Err (FS × List Effect) :=
  if entry.compress = some "zip" then
    match w.unzip data with
    | [] => Except.error Err.indexError
    | (name, content) :: _ =>
      let extractedPath := osPathJoin w.cwd name
      let fs2 := fs1.writeFile extractedPath content
      let fs3 := moveFile fs2 extractedPath path
      Except.ok (fs3, [Effect.extractMove name extractedPath path])
  else
    Except.ok (fs1.writeFile path data, [Effect.writeFile path])

/-- The target path computed on line 85:
`self.get_path(os.path.join("data-files/external", rel_path))`. -/
def externalTarget (td : TestData) (w : World) (rel_path : String) : String :=
  td.get_path w.cwd (osPathJoin "data-files/external" rel_path)

/-- `TestData.get_external_data(rel_path)` (lines 74-142): compute the
target path; return it at once when it exists; otherwise look up the
configuration entry (raising when there is none), create the parent
directory, download by the selected strategy, store (unzipping when
configured), and return the target path. The result is the returned
value or raised error, the final state, and the effect trace. -/
def TestData.get_external_data (td : TestData) (w : World) (fs : FS) (rel_path : String) :
    Except Err String × FS × List Effect :=
  let path := externalTarget td w rel_path
  if fs.existsPath path then
    (Except.ok path, fs, [])
  else
    match lookupEntry td.external_data rel_path with
    | none => (Except.error (Err.missingConfig path rel_path), fs, [Effect.lookup rel_path])
    | some entry =>
      let dir := dirname path
      let fs1 := fs.makedirs dir
      match selectDownload w entry with
      | Except.error e => (Except.error e, fs1, [Effect.lookup rel_path, Effect.makedirs dir])
      | Except.ok (data, dlEff) =>
        match storeData w fs1 path entry data with
        | Except.error e =>
          (Except.error e, fs1, [Effect.lookup rel_path, Effect.makedirs dir, dlEff])
        | Except.ok (fs2, stEffs) =>
          (Except.ok path, fs2, [Effect.lookup rel_path, Effect.makedirs dir, dlEff] ++ stEffs)

/-- Recogniser for the missing-configuration error. -/
def isMissingConfig : Except Err String → Bool
  | Except.error (Err.missingConfig _ _) => true
  | _ => false

/-- Recogniser for the three download effects. -/
def isDownloadEffect : Effect → Bool
  | Effect.s3Download _ => true
  | Effect.signAndFetch _ _ => true
  | Effect.fetchUrl _ => true
  | _ => false

/-- Recogniser for the zip-extraction effect. -/
def isExtractEffect : Effect → Bool
  | Effect.extractMove _ _ _ => true
  | _ => false

/-- The download effect produced by the selected strategy, in the fixed
priority order of lines 99-127: s3, then planetary computer, then a
direct fetch. -/
def downloadEffect (w : World) (entry : Entry) : Effect :=
  if truthy entry.s3 then Effect.s3Download entry.url
  else if truthy entry.planetary_computer then
    Effect.signAndFetch entry.url (w.sign entry.url)
  else Effect.fetchUrl entry.url

/-- The name of the first archive member (`z.namelist()[0]`). -/
def firstMemberName (w : World) (data : Bytes) : String :=
  match w.unzip data with
  | [] => ""
  | (name, _) :: _ => name

/-- The contents of the first archive member. -/
def firstMemberContent (w : World) (data : Bytes) : Bytes :=
  match w.unzip data with
  | [] => []
  | (_, content) :: _ => content

/-! ### Concrete fixtures for witnesses and counterexamples -/

/-- An empty file system. -/
def fsEmpty : FS := { files := [], dirs := [] }

/-- A world in which every remote read succeeds; the zip oracle yields a
two-member archive whose first member is `z.hdf`. -/
def wBase : World :=
  { s3fsAvailable := true
    s3Read := fun _ => [1]
    sign := fun u => u ++ "?sig"
    fetch := fun _ => [2, 2]
    unzip := fun _ => [("z.hdf", [7]), ("extra.txt", [9])]
    cwd := "/work" }

/-- The same world with `import s3fs` failing. -/
def wNoS3fs : World := { wBase with s3fsAvailable := false }

/-- An entry fetched directly and unzipped. -/
def entryZip : Entry :=
  { url := "https://x/y.zip", s3 := none, planetary_computer := none,
    compress := some "zip" }

/-- An entry with a truthy s3 configuration. -/
def entryS3 : Entry :=
  { url := "s3://bucket/y", s3 := some true, planetary_computer := none,
    compress := none }

/-- An entry with a truthy planetary-computer flag. -/
def entryPc : Entry :=
  { url := "https://pc/x.tif", s3 := none, planetary_computer := some true,
    compress := none }

/-- A `TestData` fixture with one entry per strategy. -/
def tdFixture : TestData :=
  { path := "/tests/__init__.py"
    external_data := [("z.hdf", entryZip), ("s.tif", entryS3), ("p.tif", entryPc)] }

/-- A file system already holding the cached fixture file. -/
def fsCached : FS :=
  { files := [("/tests/data-files/external/cached.tif", [5])], dirs := [] }

/-- An fsspec model in which every href expands to an empty path list
(as a glob pattern matching no files does). -/
def fsspecEmptyGlob : FsspecWorld :=
  { resolvedPaths := fun _ => [], fsExists := fun _ => false }

/-! ### File-system lemmas -/

/-- Removing a path removes exactly its binding. -/
theorem lookupBytes_removeKey (l : List (String × Bytes)) (p q : String) :
    lookupBytes (removeKey l p) q = if q = p then none else lookupBytes l q := by
  induction l with
  | nil => simp [removeKey, lookupBytes]
  | cons kv rest ih =>
    obtain ⟨k, v⟩ := kv
    simp only [removeKey, lookupBytes]
    by_cases hk : k = p <;> by_cases hq : q = p <;> by_cases hkq : k = q <;>
      simp_all [lookupBytes]

/-- A write is visible at the written path. -/
theorem lookupBytes_writeFile_self (fs : FS) (p : String) (d : Bytes) :
    lookupBytes (fs.writeFile p d).files p = some d := by
  simp [FS.writeFile, lookupBytes]

/-- A write leaves every other path unchanged. -/
theorem lookupBytes_writeFile_ne (fs : FS) (p q : String) (d : Bytes) (h : q ≠ p) :
    lookupBytes (fs.writeFile p d).files q = lookupBytes fs.files q := by
  simp [FS.writeFile, lookupBytes, Ne.symm h, lookupBytes_removeKey, h]

/-- A path with contents exists. -/
theorem existsPath_of_lookup (fs : FS) (p : String) (c : Bytes)
    (h : lookupBytes fs.files p = some c) : fs.existsPath p = true := by
  unfold FS.existsPath
  rw [h]
  rfl

/-- `makedirs` does not touch the files. -/
theorem makedirs_files (fs : FS) (p : String) : (fs.makedirs p).files = fs.files := rfl

/-- Writing then moving the written file lands its contents at the
destination. -/
theorem lookupBytes_move_write_self (fs1 : FS) (src dst : String) (c : Bytes) :
    lookupBytes (moveFile (fs1.writeFile src c) src dst).files dst = some c := by
  unfold moveFile
  rw [lookupBytes_writeFile_self]
  exact lookupBytes_writeFile_self _ _ _

/-- Writing then moving the written file changes no path other than the
source and the destination. -/
theorem lookupBytes_move_write_frame (fs1 : FS) (src dst q : String) (c : Bytes)
    (hd : q ≠ dst) (hs : q ≠ src) :
    lookupBytes (moveFile (fs1.writeFile src c) src dst).files q =
      lookupBytes fs1.files q := by
  unfold moveFile
  rw [lookupBytes_writeFile_self]
  show lookupBytes (FS.writeFile _ dst c).files q = _
  rw [lookupBytes_writeFile_ne _ _ _ _ hd]
  show lookupBytes (removeKey (fs1.writeFile src c).files src) q = _
  rw [lookupBytes_removeKey]
  simp only [hs, if_false]
  exact lookupBytes_writeFile_ne _ _ _ _ hs

/-! ### Branch equations for the fetcher -/

/-- The only error of the strategy selection is the re-raised
`ImportError`. -/
theorem selectDownload_error_eq (w : World) (entry : Entry) (e : Err)
    (h : selectDownload w entry = Except.error e) : e = Err.importError := by
  unfold selectDownload at h
  by_cases h1 : truthy entry.s3 = true
  · simp only [h1, if_true] at h
    by_cases h2 : w.s3fsAvailable = true
    · simp [h2] at h
    · simp only [eq_false_of_ne_true h2, Bool.false_eq_true, if_false] at h
      exact (Except.error.inj h).symm
  · simp only [eq_false_of_ne_true h1, Bool.false_eq_true, if_false] at h
    by_cases h2 : truthy entry.planetary_computer = true <;> simp [h2] at h

/-- When s3fs is installed whenever the s3 strategy is selected, the
strategy selection succeeds with the bytes and effect of the strategy of
highest priority. -/
theorem selectDownload_ok_eq (w : World) (entry : Entry)
    (hs3 : truthy entry.s3 = true → w.s3fsAvailable = true) :
    selectDownload w entry = Except.ok (downloadBytes w entry, downloadEffect w entry) := by
  unfold selectDownload downloadBytes downloadEffect
  by_cases h1 : truthy entry.s3 = true
  · simp [h1, hs3 h1]
  · simp only [eq_false_of_ne_true h1, Bool.false_eq_true, if_false]
    by_cases h2 : truthy entry.planetary_computer = true <;> simp [h2]

/-- The store step in the zip case with a non-empty archive: extract the
first member into the working directory and move it onto the target. -/
theorem storeData_zip_eq (w : World) (fs1 : FS) (path : String) (entry : Entry)
    (data : Bytes) (name : String) (content : Bytes) (rest : List (String × Bytes))
    (hz : entry.compress = some "zip")
    (hun : w.unzip data = (name, content) :: rest) :
    storeData w fs1 path entry data =
      Except.ok
        (moveFile (fs1.writeFile (osPathJoin w.cwd name) content)
          (osPathJoin w.cwd name) path,
         [Effect.extractMove name (osPathJoin w.cwd name) path]) := by
  unfold storeData
  rw [if_pos hz, hun]

/-- The store step in the zip case with an empty archive raises the
`IndexError` of `z.namelist()[0]`. -/
theorem storeData_zip_empty_eq (w : World) (fs1 : FS) (path : String) (entry : Entry)
    (data : Bytes) (hz : entry.compress = some "zip") (hun : w.unzip data = []) :
    storeData w fs1 path entry data = Except.error Err.indexError := by
  unfold storeData
  rw [if_pos hz, hun]

/-- The store step without zip compression writes the bytes directly. -/
theorem storeData_direct_eq (w : World) (fs1 : FS) (path : String) (entry : Entry)
    (data : Bytes) (hnz : ¬ entry.compress = some "zip") :
    storeData w fs1 path entry data =
      Except.ok (fs1.writeFile path data, [Effect.writeFile path]) := by
  unfold storeData
  rw [if_neg hnz]

/-- The only error of the store step is the `IndexError`. -/
theorem storeData_error_eq (w : World) (fs1 : FS) (path : String) (entry : Entry)
    (data : Bytes) (e : Err) (h : storeData w fs1 path entry data = Except.error e) :
    e = Err.indexError := by
  unfold storeData at h
  by_cases hz : entry.compress = some "zip"
  · rw [if_pos hz] at h
    cases hun : w.unzip data with
    | nil =>
      rw [hun] at h
      exact (Except.error.inj h).symm
    | cons nc rest =>
      obtain ⟨name, content⟩ := nc
      rw [hun] at h
      cases h
  · rw [if_neg hz] at h
    cases h

/-- A successful store step leaves a file at the target path. -/
theorem storeData_ok_exists (w : World) (fs1 : FS) (path : String) (entry : Entry)
    (data : Bytes) (fs2 : FS) (effs : List Effect)
    (h : storeData w fs1 path entry data = Except.ok (fs2, effs)) :
    fs2.existsPath path = true := by
  by_cases hz : entry.compress = some "zip"
  · cases hun : w.unzip data with
    | nil => rw [storeData_zip_empty_eq w fs1 path entry data hz hun] at h; cases h
    | cons nc rest =>
      obtain ⟨name, content⟩ := nc
      rw [storeData_zip_eq w fs1 path entry data name content rest hz hun] at h
      have hfs : fs2 = moveFile (fs1.writeFile (osPathJoin w.cwd name) content)
          (osPathJoin w.cwd name) path :=
        (congrArg Prod.fst (Except.ok.inj h)).symm
      rw [hfs]
      exact existsPath_of_lookup _ _ _ (lookupBytes_move_write_self _ _ _ _)
  · rw [storeData_direct_eq w fs1 path entry data hz] at h
    have hfs : fs2 = fs1.writeFile path data :=
      (congrArg Prod.fst (Except.ok.inj h)).symm
    rw [hfs]
    exact existsPath_of_lookup _ _ _ (lookupBytes_writeFile_self _ _ _)

/-- Cache hit: the fetcher returns the target immediately. -/
theorem geds_hit (td : TestData) (w : World) (fs : FS) (rel : String)
    (hex : fs.existsPath (externalTarget td w rel) = true) :
    td.get_external_data w fs rel = (Except.ok (externalTarget td w rel), fs, []) := by
  unfold TestData.get_external_data
  simp [hex]

/-- Cache miss without a configuration entry: the fetcher raises the
missing-configuration error, leaving the state unchanged. -/
theorem geds_none (td : TestData) (w : World) (fs : FS) (rel : String)
    (hex : fs.existsPath (externalTarget td w rel) = false)
    (hlk : lookupEntry td.external_data rel = none) :
    td.get_external_data w fs rel =
      (Except.error (Err.missingConfig (externalTarget td w rel) rel), fs,
       [Effect.lookup rel]) := by
  unfold TestData.get_external_data
  simp [hex, hlk]

/-- Cache miss with an entry whose download fails: the error propagates
after the directory creation. -/
theorem geds_dl_error (td : TestData) (w : World) (fs : FS) (rel : String)
    (entry : Entry) (e : Err)
    (hex : fs.existsPath (externalTarget td w rel) = false)
    (hlk : lookupEntry td.external_data rel = some entry)
    (hdl : selectDownload w entry = Except.error e) :
    td.get_external_data w fs rel =
      (Except.error e, fs.makedirs (dirname (externalTarget td w rel)),
       [Effect.lookup rel, Effect.makedirs (dirname (externalTarget td w rel))]) := by
  unfold TestData.get_external_data
  simp [hex, hlk, hdl]

/-- Cache miss with a successful download but failing store step. -/
theorem geds_store_error (td : TestData) (w : World) (fs : FS) (rel : String)
    (entry : Entry) (data : Bytes) (dlEff : Effect) (e : Err)
    (hex : fs.existsPath (externalTarget td w rel) = false)
    (hlk : lookupEntry td.external_data rel = some entry)
    (hdl : selectDownload w entry = Except.ok (data, dlEff))
    (hst : storeData w (fs.makedirs (dirname (externalTarget td w rel)))
      (externalTarget td w rel) entry data = Except.error e) :
    td.get_external_data w fs rel =
      (Except.error e, fs.makedirs (dirname (externalTarget td w rel)),
       [Effect.lookup rel, Effect.makedirs (dirname (externalTarget td w rel)), dlEff]) := by
  unfold TestData.get_external_data
  simp [hex, hlk, hdl, hst]

/-- The selected download effect is one of the three download effects. -/
theorem isDownloadEffect_downloadEffect (w : World) (entry : Entry) :
    isDownloadEffect (downloadEffect w entry) = true := by
  unfold downloadEffect isDownloadEffect
  by_cases h1 : truthy entry.s3 = true <;>
    by_cases h2 : truthy entry.planetary_computer = true <;>
    simp [h1, h2]

/-- The selected download effect is never the extraction effect. -/
theorem isExtractEffect_downloadEffect (w : World) (entry : Entry) :
    isExtractEffect (downloadEffect w entry) = false := by
  unfold downloadEffect isExtractEffect
  by_cases h1 : truthy entry.s3 = true <;>
    by_cases h2 : truthy entry.planetary_computer = true <;>
    simp [h1, h2]

/-- The lookup effect is not a download. -/
theorem isDownloadEffect_lookup (k : String) :
    isDownloadEffect (Effect.lookup k) = false := rfl

/-- The directory-creation effect is not a download. -/
theorem isDownloadEffect_makedirs (d : String) :
    isDownloadEffect (Effect.makedirs d) = false := rfl

/-- The extraction effect is not a download. -/
theorem isDownloadEffect_extractMove (m s d : String) :
    isDownloadEffect (Effect.extractMove m s d) = false := rfl

/-- The write effect is not a download. -/
theorem isDownloadEffect_writeFile (p : String) :
    isDownloadEffect (Effect.writeFile p) = false := rfl

/-- The lookup effect is not an extraction. -/
theorem isExtractEffect_lookup (k : String) :
    isExtractEffect (Effect.lookup k) = false := rfl

/-- The directory-creation effect is not an extraction. -/
theorem isExtractEffect_makedirs (d : String) :
    isExtractEffect (Effect.makedirs d) = false := rfl

/-- The extraction effect is recognised as one. -/
theorem isExtractEffect_extractMove (m s d : String) :
    isExtractEffect (Effect.extractMove m s d) = true := rfl

/-- Cache miss with a successful download and store: the fetcher returns
the target with the stored state and the full effect trace in program
order. -/
theorem geds_store_ok (td : TestData) (w : World) (fs : FS) (rel : String)
    (entry : Entry) (data : Bytes) (dlEff : Effect) (fs2 : FS) (stEffs : List Effect)
    (hex : fs.existsPath (externalTarget td w rel) = false)
    (hlk : lookupEntry td.external_data rel = some entry)
    (hdl : selectDownload w entry = Except.ok (data, dlEff))
    (hst : storeData w (fs.makedirs (dirname (externalTarget td w rel)))
      (externalTarget td w rel) entry data = Except.ok (fs2, stEffs)) :
    td.get_external_data w fs rel =
      (Except.ok (externalTarget td w rel), fs2,
       [Effect.lookup rel, Effect.makedirs (dirname (externalTarget td w rel)), dlEff]
         ++ stEffs) := by
  unfold TestData.get_external_data
  simp [hex, hlk, hdl, hst]

/-! ### Claim theorems -/

/-- C1: code-bug evidence. `href_exists` is declared `-> bool` and
documented as a boolean existence predicate, but on an href whose fsspec
path expansion is empty (a glob pattern matching no file) the expression
`paths and fs.exists(paths[0])` short-circuits to `paths` itself, so the
function returns the empty list — a falsy value that is neither `True`
nor `False`. -/
theorem href_exists_empty_expansion_not_bool :
    href_exists fsspecEmptyGlob "file:///tmp/nomatch-*" = PyResult.pylist [] ∧
    href_exists fsspecEmptyGlob "file:///tmp/nomatch-*" ≠ PyResult.pybool false ∧
    href_exists fsspecEmptyGlob "file:///tmp/nomatch-*" ≠ PyResult.pybool true := by
  refine ⟨rfl, ?_, ?_⟩ <;> decide

/-- C2: `map_opt fn v` is None when `v` is None and `fn` applied to the
payload otherwise; it is a pure function and its result on None does not
depend on `fn` at all, so `fn` is never applied in that case. -/
theorem map_opt_spec :
    (∀ (α β : Type) (fn : α → β), map_opt fn (none : Option α) = none) ∧
    (∀ (α β : Type) (fn : α → β) (x : α), map_opt fn (some x) = some (fn x)) ∧
    (∀ (α β : Type) (f g : α → β), map_opt f (none : Option α) = map_opt g none) :=
  ⟨fun _ _ _ => rfl, fun _ _ _ _ => rfl, fun _ _ _ _ => rfl⟩

/-- C8: `map_opt` satisfies the functor laws: mapping the identity is
the identity, and mapping a composition is the composition of the
maps. -/
theorem map_opt_functor_laws :
    (∀ (α : Type) (v : Option α), map_opt id v = v) ∧
    (∀ (α β γ : Type) (f : β → γ) (g : α → β) (v : Option α),
      map_opt f (map_opt g v) = map_opt (f ∘ g) v) := by
  constructor
  · intro α v
    cases v <;> rfl
  · intro α β γ f g v
    cases v <;> rfl

/-- C7: the command-line entry point configures the 'stactools' logger:
level ERROR when quiet is set (quiet wins even when verbose is also
set), DEBUG when only verbose is set, and INFO when neither is. -/
theorem cli_configures_stactools_logger :
    ∀ verbose quiet : Bool,
      (cli verbose quiet).name = "stactools" ∧
      (cli verbose quiet).level =
        (if quiet then ERROR else if verbose then DEBUG else INFO) ∧
      (cli verbose quiet).handlerLevel = (cli verbose quiet).level := by
  decide

/-- C3: downloading is lazy. When the resolved local path
(`data-files/external` joined with `rel_path`, made absolute relative to
the directory of `self.path`) already exists, `get_external_data`
returns that path with the file-system state unchanged and an empty
effect trace: `external_data` is never consulted, nothing is downloaded
and nothing on disk is modified. -/
theorem get_external_data_cache_hit (td : TestData) (w : World) (fs : FS) (rel : String)
    (h : fs.existsPath (externalTarget td w rel) = true) :
    td.get_external_data w fs rel = (Except.ok (externalTarget td w rel), fs, []) :=
  geds_hit td w fs rel h

/-- Witness for C3 at a concrete cached file. -/
theorem get_external_data_cache_hit_witness :
    tdFixture.get_external_data wBase fsCached "cached.tif" =
      (Except.ok (externalTarget tdFixture wBase "cached.tif"), fsCached, []) :=
  get_external_data_cache_hit tdFixture wBase fsCached "cached.tif" (by decide)

/-- C4: counterexample. With the target path missing and a configuration
entry present whose `s3` key is truthy, but s3fs not installed, the
fetcher re-raises `ImportError`: an error distinct from the
missing-configuration one, raised although an entry for `rel_path`
exists, and raised after the parent directory has already been created
(so the state is not unchanged either). -/
theorem get_external_data_error_beyond_missing_config :
    (tdFixture.get_external_data wNoS3fs fsEmpty "s.tif").1 =
      Except.error Err.importError ∧
    isMissingConfig (tdFixture.get_external_data wNoS3fs fsEmpty "s.tif").1 = false ∧
    fsEmpty.existsPath (externalTarget tdFixture wNoS3fs "s.tif") = false ∧
    lookupEntry tdFixture.external_data "s.tif" = some entryS3 ∧
    (tdFixture.get_external_data wNoS3fs fsEmpty "s.tif").2.1 ≠ fsEmpty := by
  refine ⟨?_, ?_, ?_, ?_, ?_⟩ <;> decide

/-- C4 amended: the missing-configuration exception is raised exactly
when the resolved local path does not exist and `external_data` has no
entry for `rel_path`, and whenever there is no entry the state is left
unchanged (in particular no file is created); it is however not the
fetcher's only raised error, since the s3 branch re-raises `ImportError`
when s3fs is absent and zip extraction of an empty archive raises
`IndexError`. -/
theorem get_external_data_missing_config_iff (td : TestData) (w : World) (fs : FS)
    (rel : String) :
    (isMissingConfig (td.get_external_data w fs rel).1 = true ↔
      fs.existsPath (externalTarget td w rel) = false ∧
      lookupEntry td.external_data rel = none) ∧
    (lookupEntry td.external_data rel = none →
      (td.get_external_data w fs rel).2.1 = fs) := by
  cases hex : fs.existsPath (externalTarget td w rel) with
  | true =>
    rw [geds_hit td w fs rel hex]
    constructor
    · simp [isMissingConfig, hex]
    · intro _
      rfl
  | false =>
    cases hlk : lookupEntry td.external_data rel with
    | none =>
      rw [geds_none td w fs rel hex hlk]
      constructor
      · simp [isMissingConfig, hex]
      · intro _
        rfl
    | some entry =>
      constructor
      · constructor
        · intro hmc
          exfalso
          cases hdl : selectDownload w entry with
          | error e =>
            rw [geds_dl_error td w fs rel entry e hex hlk hdl,
              selectDownload_error_eq w entry e hdl] at hmc
            simp [isMissingConfig] at hmc
          | ok pr =>
            obtain ⟨data, dlEff⟩ := pr
            cases hst : storeData w (fs.makedirs (dirname (externalTarget td w rel)))
                (externalTarget td w rel) entry data with
            | error e =>
              rw [geds_store_error td w fs rel entry data dlEff e hex hlk hdl hst,
                storeData_error_eq w _ _ entry data e hst] at hmc
              simp [isMissingConfig] at hmc
            | ok pr2 =>
              obtain ⟨fs2, stEffs⟩ := pr2
              rw [geds_store_ok td w fs rel entry data dlEff fs2 stEffs hex hlk hdl hst]
                at hmc
              simp [isMissingConfig] at hmc
        · rintro ⟨_, hnone⟩
          cases hnone
      · intro hnone
        cases hnone

/-- Witness for C4 at a key with no configuration entry. -/
theorem get_external_data_missing_config_iff_witness :
    (tdFixture.get_external_data wBase fsEmpty "other.tif").2.1 = fsEmpty :=
  (get_external_data_missing_config_iff tdFixture wBase fsEmpty "other.tif").2 (by decide)

/-- C5: on a cache miss with an entry present (and s3fs installed when
the s3 strategy is selected), the fetcher performs exactly one download
effect, chosen in fixed priority order: s3 when the `s3` key is truthy,
otherwise sign-then-fetch when `planetary_computer` is truthy, otherwise
a direct fetch of the entry's url. -/
theorem get_external_data_strategy_priority (td : TestData) (w : World) (fs : FS)
    (rel : String) (entry : Entry)
    (hex : fs.existsPath (externalTarget td w rel) = false)
    (hlk : lookupEntry td.external_data rel = some entry)
    (hs3 : truthy entry.s3 = true → w.s3fsAvailable = true) :
    (td.get_external_data w fs rel).2.2.filter isDownloadEffect =
      [downloadEffect w entry] ∧
    downloadEffect w entry =
      (if truthy entry.s3 then Effect.s3Download entry.url
       else if truthy entry.planetary_computer then
         Effect.signAndFetch entry.url (w.sign entry.url)
       else Effect.fetchUrl entry.url) := by
  refine ⟨?_, rfl⟩
  have hdl := selectDownload_ok_eq w entry hs3
  by_cases hz : entry.compress = some "zip"
  · cases hun : w.unzip (downloadBytes w entry) with
    | nil =>
      rw [geds_store_error td w fs rel entry (downloadBytes w entry)
        (downloadEffect w entry) Err.indexError hex hlk hdl
        (storeData_zip_empty_eq w _ _ entry _ hz hun)]
      simp [List.filter_cons, List.filter_nil, isDownloadEffect_lookup,
        isDownloadEffect_makedirs, isDownloadEffect_downloadEffect,
        isDownloadEffect_extractMove, isDownloadEffect_writeFile]
    | cons nc rest =>
      obtain ⟨name, content⟩ := nc
      rw [geds_store_ok td w fs rel entry (downloadBytes w entry)
        (downloadEffect w entry) _ _ hex hlk hdl
        (storeData_zip_eq w _ _ entry _ name content rest hz hun)]
      simp [List.filter_cons, List.filter_nil, isDownloadEffect_lookup,
        isDownloadEffect_makedirs, isDownloadEffect_downloadEffect,
        isDownloadEffect_extractMove, isDownloadEffect_writeFile]
  · rw [geds_store_ok td w fs rel entry (downloadBytes w entry)
      (downloadEffect w entry) _ _ hex hlk hdl
      (storeData_direct_eq w _ _ entry _ hz)]
    simp [List.filter_cons, List.filter_nil, isDownloadEffect_lookup,
      isDownloadEffect_makedirs, isDownloadEffect_downloadEffect,
      isDownloadEffect_extractMove, isDownloadEffect_writeFile]

/-- Witness for C5 at a planetary-computer entry. -/
theorem get_external_data_strategy_priority_witness :
    (tdFixture.get_external_data wBase fsEmpty "p.tif").2.2.filter isDownloadEffect =
      [downloadEffect wBase entryPc] :=
  (get_external_data_strategy_priority tdFixture wBase fsEmpty "p.tif" entryPc
    (by decide) (by decide) (by decide)).1

/-- C6: on a cache miss with an entry present, a working download
strategy and a non-empty archive when zip-compressed, the fetcher
returns the target absolute path; the target then holds the first
archive member's contents when `compress` is `"zip"` and the downloaded
bytes otherwise; and the effect trace is exactly the linear order
lookup, directory creation, one download, then extract-and-move or a
direct write. -/
theorem get_external_data_download_success (td : TestData) (w : World) (fs : FS)
    (rel : String) (entry : Entry)
    (hex : fs.existsPath (externalTarget td w rel) = false)
    (hlk : lookupEntry td.external_data rel = some entry)
    (hs3 : truthy entry.s3 = true → w.s3fsAvailable = true)
    (hzip : entry.compress = some "zip" → w.unzip (downloadBytes w entry) ≠ []) :
    (td.get_external_data w fs rel).1 = Except.ok (externalTarget td w rel) ∧
    lookupBytes (td.get_external_data w fs rel).2.1.files (externalTarget td w rel) =
      some (if entry.compress = some "zip"
            then firstMemberContent w (downloadBytes w entry)
            else downloadBytes w entry) ∧
    (td.get_external_data w fs rel).2.2 =
      [Effect.lookup rel, Effect.makedirs (dirname (externalTarget td w rel)),
       downloadEffect w entry] ++
      (if entry.compress = some "zip"
       then [Effect.extractMove (firstMemberName w (downloadBytes w entry))
               (osPathJoin w.cwd (firstMemberName w (downloadBytes w entry)))
               (externalTarget td w rel)]
       else [Effect.writeFile (externalTarget td w rel)]) := by
  have hdl := selectDownload_ok_eq w entry hs3
  by_cases hz : entry.compress = some "zip"
  · cases hun : w.unzip (downloadBytes w entry) with
    | nil => exact absurd hun (hzip hz)
    | cons nc rest =>
      obtain ⟨name, content⟩ := nc
      rw [geds_store_ok td w fs rel entry (downloadBytes w entry)
        (downloadEffect w entry) _ _ hex hlk hdl
        (storeData_zip_eq w _ _ entry _ name content rest hz hun)]
      refine ⟨rfl, ?_, ?_⟩
      · rw [if_pos hz]
        unfold firstMemberContent
        rw [hun]
        simp [lookupBytes_move_write_self]
      · rw [if_pos hz]
        unfold firstMemberName
        rw [hun]
  · rw [geds_store_ok td w fs rel entry (downloadBytes w entry)
      (downloadEffect w entry) _ _ hex hlk hdl
      (storeData_direct_eq w _ _ entry _ hz)]
    refine ⟨rfl, ?_, ?_⟩
    · rw [if_neg hz]
      simp [lookupBytes_writeFile_self]
    · rw [if_neg hz]

/-- Witness for C6 at a direct-fetch entry. -/
theorem get_external_data_download_success_witness :
    (tdFixture.get_external_data wBase fsEmpty "p.tif").1 =
      Except.ok (externalTarget tdFixture wBase "p.tif") :=
  (get_external_data_download_success tdFixture wBase fsEmpty "p.tif" entryPc
    (by decide) (by decide) (by decide) (by decide)).1

/-- C9: in the zip case only the FIRST member of the archive is
extracted and moved onto the target path: the target ends up with the
first member's contents, the only extraction effect concerns the first
member, and every path other than the target and the extraction site
(the first member's name under the working directory) keeps its previous
contents — no other member is ever written. -/
theorem get_external_data_zip_first_member (td : TestData) (w : World) (fs : FS)
    (rel name : String) (content : Bytes) (rest : List (String × Bytes)) (entry : Entry)
    (hex : fs.existsPath (externalTarget td w rel) = false)
    (hlk : lookupEntry td.external_data rel = some entry)
    (hs3 : truthy entry.s3 = true → w.s3fsAvailable = true)
    (hz : entry.compress = some "zip")
    (hun : w.unzip (downloadBytes w entry) = (name, content) :: rest) :
    lookupBytes (td.get_external_data w fs rel).2.1.files (externalTarget td w rel) =
      some content ∧
    (td.get_external_data w fs rel).2.2.filter isExtractEffect =
      [Effect.extractMove name (osPathJoin w.cwd name) (externalTarget td w rel)] ∧
    ∀ p : String, p ≠ externalTarget td w rel → p ≠ osPathJoin w.cwd name →
      lookupBytes (td.get_external_data w fs rel).2.1.files p =
        lookupBytes fs.files p := by
  have hdl := selectDownload_ok_eq w entry hs3
  rw [geds_store_ok td w fs rel entry (downloadBytes w entry) (downloadEffect w entry)
    _ _ hex hlk hdl (storeData_zip_eq w _ _ entry _ name content rest hz hun)]
  refine ⟨?_, ?_, ?_⟩
  · simp [lookupBytes_move_write_self]
  · simp [List.filter_cons, List.filter_nil, isExtractEffect_lookup,
      isExtractEffect_makedirs, isExtractEffect_downloadEffect,
      isExtractEffect_extractMove]
  · intro p hpt hps
    show lookupBytes (moveFile _ _ _).files p = _
    rw [lookupBytes_move_write_frame _ _ _ _ _ hpt hps, makedirs_files]

/-- Witness for C9 at a two-member archive: the second member is
discarded. -/
theorem get_external_data_zip_first_member_witness :
    lookupBytes (tdFixture.get_external_data wBase fsEmpty "z.hdf").2.1.files
      (externalTarget tdFixture wBase "z.hdf") = some [7] :=
  (get_external_data_zip_first_member tdFixture wBase fsEmpty "z.hdf" "z.hdf" [7]
    [("extra.txt", [9])] entryZip (by decide) (by decide) (by decide) (by decide)
    (by decide)).1

/-- C10: whenever the fetcher returns normally, the returned value is
the target path `get_path(os.path.join("data-files/external", rel_path))`
— the same path whether cached or freshly downloaded — and on return a
file (or, on the cached branch, an existing inode) is present at that
path. -/
theorem get_external_data_ok_target (td : TestData) (w : World) (fs : FS)
    (rel r : String)
    (h : (td.get_external_data w fs rel).1 = Except.ok r) :
    r = externalTarget td w rel ∧
    (td.get_external_data w fs rel).2.1.existsPath r = true := by
  cases hex : fs.existsPath (externalTarget td w rel) with
  | false =>
    cases hlk : lookupEntry td.external_data rel with
    | none =>
      rw [geds_none td w fs rel hex hlk] at h
      cases h
    | some entry =>
      cases hdl : selectDownload w entry with
      | error e =>
        rw [geds_dl_error td w fs rel entry e hex hlk hdl] at h
        cases h
      | ok pr =>
        obtain ⟨data, dlEff⟩ := pr
        cases hst : storeData w (fs.makedirs (dirname (externalTarget td w rel)))
            (externalTarget td w rel) entry data with
        | error e =>
          rw [geds_store_error td w fs rel entry data dlEff e hex hlk hdl hst] at h
          cases h
        | ok pr2 =>
          obtain ⟨fs2, stEffs⟩ := pr2
          rw [geds_store_ok td w fs rel entry data dlEff fs2 stEffs hex hlk hdl hst]
            at h ⊢
          have hr : externalTarget td w rel = r := Except.ok.inj h
          refine ⟨hr.symm, ?_⟩
          show fs2.existsPath r = true
          rw [← hr]
          exact storeData_ok_exists w _ _ entry data fs2 stEffs hst
  | true =>
    rw [geds_hit td w fs rel hex] at h ⊢
    have hr : externalTarget td w rel = r := Except.ok.inj h
    refine ⟨hr.symm, ?_⟩
    show fs.existsPath r = true
    rw [← hr]
    exact hex

/-- Witness for C10 at the cached fixture. -/
theorem get_external_data_ok_target_witness :
    "/tests/data-files/external/cached.tif" = externalTarget tdFixture wBase "cached.tif" ∧
    (tdFixture.get_external_data wBase fsCached "cached.tif").2.1.existsPath
      "/tests/data-files/external/cached.tif" = true :=
  get_external_data_ok_target tdFixture wBase fsCached "cached.tif"
    "/tests/data-files/external/cached.tif" (by decide)
